import Mathlib

/-!
Verification of the pychecksum transfer-integrity engine.

This file gives a shallow embedding of `pychecksum.py` and proves (or
refutes) the specified properties of it.  The filesystem is modelled as an
explicit value (`FS`): a list of absolute file paths with contents plus a
list of directory paths.  Python exceptions are modelled with `Except`
over a small error type (`PyErr`), and hash algorithms (`hashlib.md5`,
`hashlib.sha256`, ...) are modelled abstractly as a state, an incremental
`update` on byte chunks and a final `hexdigest` (`HashAlg`).
-/

/-- Python exception classes that the source can raise or catch. -/
inductive PyErr : Type where
  | fileNotFound
  | isADirectory
  | notADirectory
  | assertionError
  | indexError
deriving DecidableEq, Repr

/-- A regular file: its byte content (the stream `open(fname, 'rb')`
reads) together with filesystem metadata that `get_checksum` never
touches. -/
structure SysFile : Type where
  content : List Nat
  mtime : Nat
  perms : Nat
deriving DecidableEq, Repr

/-- The filesystem: regular files (absolute path with their `SysFile`)
and the set of directories (absolute paths). -/
structure FS : Type where
  files : List (String × SysFile)
  dirs : List String
deriving DecidableEq, Repr

/-- A `hashlib` algorithm: a fresh state (`checksum_type()`), an
incremental `update` consuming one chunk of bytes, and `hexdigest`. -/
structure HashAlg (σ : Type) : Type where
  start : σ
  update : σ → List Nat → σ
  hexdigest : σ → String

/-- The fixed block size `16 * 1024` used by `get_checksum`. -/
def CHUNK : Nat := 16 * 1024

/-- `f.read(16 * 1024)` repeated until the read comes back empty,
returning the successive chunks.  The fuel argument is bounded by the
content length, which suffices because every step consumes at least one
byte. -/
def readChunksGo : Nat → List Nat → List (List Nat)
  | _, [] => []
  | 0, l => [l]
  | fuel + 1, l => l.take CHUNK :: readChunksGo fuel (l.drop CHUNK)

/-- All chunks read from a file's byte content, in order. -/
def readChunks (l : List Nat) : List (List Nat) :=
  readChunksGo l.length l

/-- `get_checksum(fname, checksum_type, verbose)` (source lines
511-540): streams the file content in 16 KiB chunks through a fresh
algorithm state and returns the hex digest.  `verbose` only controls
printing in the source and is ignored here for the same reason. -/
def get_checksum {σ : Type} (alg : HashAlg σ) (f : SysFile) (verbose : Bool) : String :=
  let _ := verbose
  alg.hexdigest ((readChunks f.content).foldl alg.update alg.start)

/-- A concrete toy algorithm instance used for concrete evaluations: the
state accumulates the bytes seen so far and the digest prints them. -/
def algT : HashAlg (List Nat) :=
  ⟨[], fun s c => s ++ c, fun s => String.intercalate "," (s.map Nat.repr)⟩

/-- C7: digest determinism.  `get_checksum` is a function of the byte
content and the algorithm only: two files with identical content give
identical digests whatever their metadata (`mtime`, `perms`) and
whatever the verbosity flags are. -/
theorem get_checksum_deterministic {σ : Type} (alg : HashAlg σ) (f g : SysFile)
    (v1 v2 : Bool) (h : f.content = g.content) :
    get_checksum alg f v1 = get_checksum alg g v2 := by
  simp [get_checksum, h]

/-- Witness for C7: same bytes, different metadata and verbosity, equal
digests. -/
theorem get_checksum_deterministic_witness :
    (SysFile.mk [1, 2] 5 6).content = (SysFile.mk [1, 2] 7 8).content ∧
      get_checksum algT (SysFile.mk [1, 2] 5 6) true
        = get_checksum algT (SysFile.mk [1, 2] 7 8) false :=
  ⟨rfl, get_checksum_deterministic algT (SysFile.mk [1, 2] 5 6) (SysFile.mk [1, 2] 7 8)
    true false rfl⟩

/-- `str.startswith`: character-level prefix test. -/
def strStarts (s pre : String) : Bool :=
  pre.data.isPrefixOf s.data

/-- `str.endswith`: character-level suffix test. -/
def strEnds (s suf : String) : Bool :=
  suf.data.isSuffixOf s.data

/-- First occurrence of `sep` in `l` (the scan underlying Python's
`str.split(sep)`): returns the part before the occurrence and the part
after it, or `none` when `sep` never occurs. -/
def splitFirst (sep : List Char) : List Char → Option (List Char × List Char)
  | [] => none
  | c :: rest =>
    if sep.isPrefixOf (c :: rest) then some ([], (c :: rest).drop sep.length)
    else
      match splitFirst sep rest with
      | none => none
      | some (b, a) => some (c :: b, a)

/-- Python `str.split(sep)`: repeatedly split at the leftmost occurrence
of `sep`.  The fuel is bounded by the string length, enough since `sep`
is non-empty in every use in the source. -/
def pySplitGo (sep : List Char) : Nat → List Char → List (List Char)
  | 0, l => [l]
  | fuel + 1, l =>
    match splitFirst sep l with
    | none => [l]
    | some (b, a) => b :: pySplitGo sep fuel a

/-- `str.split` on character lists. -/
def pySplit (sep l : List Char) : List (List Char) :=
  pySplitGo sep (l.length + 1) l

/-- `p.split('/')` as a list of strings. -/
def splitSlash (p : String) : List String :=
  (pySplit ['/'] p.data).map String.mk

/-- `os.path.normpath` for POSIX paths: drops empty and `.` components,
resolves `..` against preceding components (keeping leading `..` on
relative paths), and preserves the special exactly-two-leading-slashes
case. -/
def normParts (isAbs : Bool) (comps : List String) : List String :=
  comps.foldl
    (fun acc comp =>
      if comp == "" || comp == "." then acc
      else if !(comp == "..") then acc ++ [comp]
      else if !isAbs && acc.isEmpty then acc ++ [comp]
      else if acc.getLast? == some ".." then acc ++ [comp]
      else if acc.isEmpty then acc
      else acc.dropLast) []

/-- Model of `os.path.normpath(p)` for POSIX paths. -/
def normpath (p : String) : String :=
  let isAbs := strStarts p "/"
  let dbl := strStarts p "//" && !(strStarts p "///")
  let np := normParts isAbs (splitSlash p)
  let res := (if isAbs then (if dbl then "//" else "/") else "") ++ String.intercalate "/" np
  if res == "" then "." else res

/-- `get_rel_path(folder, parent_folder)` (source lines 28-30):
`normpath(folder).split(normpath(parent_folder))[1]`.  Indexing a
Python list with `[1]` raises `IndexError` when the split produced a
single piece; that failure is modelled as `none`. -/
def get_rel_path (folder parent : String) : Option String :=
  match (pySplit (normpath parent).data (normpath folder).data).get? 1 with
  | none => none
  | some cs => some (String.mk cs)

/-- `os.path.join(a, b)` for the shapes used in the source: an absolute
second argument wins, otherwise the parts are joined with a single
separator. -/
def joinPath (a b : String) : String :=
  if strStarts b "/" then b
  else if a == "" then b
  else if strEnds a "/" then a ++ b
  else a ++ "/" ++ b

/-- Non-empty components of the normalized path (as in
`posixpath.relpath`). -/
def pathParts (p : String) : List String :=
  (splitSlash (normpath p)).filter (fun c => !(c == ""))

/-- Length of the common prefix of two component lists. -/
def commonLen : List String → List String → Nat
  | a :: as, b :: bs => if a == b then commonLen as bs + 1 else 0
  | _, _ => 0

/-- Model of `os.path.relpath(p, start)` for absolute POSIX paths:
strip the common component prefix, climb out of what remains of
`start`, then descend into the rest of `p`. -/
def relpath (p start : String) : String :=
  let pc := pathParts p
  let sc := pathParts start
  let i := commonLen pc sc
  let rel := List.replicate (sc.length - i) ".." ++ pc.drop i
  if rel.isEmpty then "." else String.intercalate "/" rel

/-- Counterexample for C9: `from_root = "/local"` is NOT a prefix of
`path = "/a/b/sub/local/x"`, yet `get_rel_path` silently returns the
suffix `"/x"` after the first infix occurrence of `"/local"` instead of
failing: `str.split` finds the separator anywhere, not only at the
front. -/
theorem get_rel_path_silent_on_infix :
    get_rel_path "/a/b/sub/local/x" "/local" = some "/x"
      ∧ (normpath "/local").data.isPrefixOf (normpath "/a/b/sub/local/x").data = false := by
  constructor
  · rfl
  · rfl

/-- C9 (amended): the mapping fails loudly (Python `IndexError`,
modelled as `none`) exactly in the case where the normalized `from_root`
does not occur anywhere inside the normalized path; an infix
(non-prefix) occurrence instead silently yields the text after the
first occurrence. -/
theorem get_rel_path_none_of_no_occurrence (folder parent : String)
    (h : splitFirst (normpath parent).data (normpath folder).data = none) :
    get_rel_path folder parent = none := by
  simp [get_rel_path, pySplit, pySplitGo, h]

/-- Witness for the amended C9: `"/zzz"` never occurs in `"/a/b"`, and
the mapping indeed raises instead of producing a path. -/
theorem get_rel_path_none_of_no_occurrence_witness :
    splitFirst (normpath "/zzz").data (normpath "/a/b").data = none
      ∧ get_rel_path "/a/b" "/zzz" = none :=
  ⟨rfl, get_rel_path_none_of_no_occurrence "/a/b" "/zzz" rfl⟩

/-- `pathlib.Path(root).rglob('*')` filtered by `is_file()`: every
regular-file path strictly below `root`.  As in `pathlib`, globbing a
root that is not a directory yields nothing (the selector checks
`is_dir()` first and returns an empty iterator). -/
def rglobFiles (fs : FS) (root : String) : List String :=
  if fs.dirs.contains root then
    (fs.files.map Prod.fst).filter (fun p => strStarts p (root ++ "/"))
  else []

/-- The name of `p` when `p` is an immediate child of `root`, else
`none`. -/
def childName (root p : String) : Option String :=
  if strStarts p (root ++ "/") then
    let rest := p.data.drop (root.data.length + 1)
    if rest.isEmpty || rest.contains '/' then none else some (String.mk rest)
  else none

/-- `os.listdir(root)` on a directory: names of the immediate children
(files and directories alike, hidden names included). -/
def listdir (fs : FS) (root : String) : List String :=
  (fs.files.map Prod.fst ++ fs.dirs).filterMap (childName root)

/-- `os.listdir(root)` with its error behavior: `FileNotFoundError` for
a missing path and `NotADirectoryError` for a path that is a regular
file. -/
def listdir_err (fs : FS) (root : String) : Except PyErr (List String) :=
  if fs.dirs.contains root then .ok (listdir fs root)
  else if fs.files.any (fun kv => kv.1 == root) then .error PyErr.notADirectory
  else .error PyErr.fileNotFound

/-- `open(p, 'rb')` followed by the chunked digest of `get_checksum`:
`IsADirectoryError` when `p` is a directory, `FileNotFoundError` when it
does not exist. -/
def get_checksum_fs {σ : Type} (fs : FS) (alg : HashAlg σ) (p : String) :
    Except PyErr String :=
  match fs.files.find? (fun kv => kv.1 == p) with
  | some kv => .ok (get_checksum alg kv.2 false)
  | none =>
    if fs.dirs.contains p then .error PyErr.isADirectory
    else .error PyErr.fileNotFound

/-- `shutil.rmtree(p, ignore_errors=True)`: removes a directory and
everything below it; on a regular file it raises `NotADirectoryError`
and on a missing path `FileNotFoundError`, both of which
`ignore_errors=True` swallows, leaving the filesystem unchanged. -/
def underOrEq (p q : String) : Bool :=
  q == p || strStarts q (p ++ "/")

/-- Best-effort recursive removal (see `underOrEq`). -/
def rmtree_ignore (fs : FS) (p : String) : FS :=
  if fs.dirs.contains p then
    ⟨fs.files.filter (fun kv => !(underOrEq p kv.1)),
     fs.dirs.filter (fun q => !(underOrEq p q))⟩
  else fs

/-- Python `dict[k] = v` on an insertion-ordered association list:
overwrite in place when the key exists, append otherwise. -/
def dictInsert {α : Type} (m : List (String × α)) (k : String) (v : α) :
    List (String × α) :=
  if m.any (fun kv => kv.1 == k) then
    m.map (fun kv => if kv.1 == k then (k, v) else kv)
  else m ++ [(k, v)]

/-- `TrackPathHistory` (source lines 33-101) in its default
`track_type='files'` mode: it records the recursive file listing of the
monitored path at construction time (`contents.pre`). -/
structure TrackPathHistory : Type where
  pathname : String
  contents_pre : List String
deriving DecidableEq, Repr

/-- `TrackPathHistory.__init__` over the filesystem at construction
time. -/
def TrackPathHistory.make (fs : FS) (path : String) : TrackPathHistory :=
  ⟨path, rglobFiles fs path⟩

/-- `ls_new` (source lines 79-90): re-snapshot the tree and return
`set(contents.post) - set(contents.pre)`, the entries present now and
absent at construction time (listed here in snapshot order). -/
def TrackPathHistory.ls_new (t : TrackPathHistory) (fs : FS) : List String :=
  (rglobFiles fs t.pathname).filter (fun p => decide (¬ p ∈ t.contents_pre))

/-- `rm_new` (source lines 92-101): best-effort `shutil.rmtree` over
every entry of `ls_new`. -/
def TrackPathHistory.rm_new (t : TrackPathHistory) (fs : FS) : FS :=
  (t.ls_new fs).foldl rmtree_ignore fs

/-- C6: `ls_new` is the strict set difference of the current snapshot
against the snapshot taken at construction: a path is reported iff it
is present under the root now and was absent under the root when the
tracker was built.  The baseline `contents_pre` is fixed at
construction, so an entry that appeared and then disappeared is not
reported, and the removal of a baseline entry is never reported. -/
theorem ls_new_strict_diff (fs0 fs : FS) (root p : String) :
    p ∈ (TrackPathHistory.make fs0 root).ls_new fs ↔
      p ∈ rglobFiles fs root ∧ p ∉ rglobFiles fs0 root := by
  simp [TrackPathHistory.ls_new, TrackPathHistory.make, List.mem_filter]

/-- `compare_file_checksums(file_pre, file_post, ...)` (source lines
675-739): digest both files and return whether the digests are equal.
I/O errors from either digest propagate. -/
def compare_file_checksums {σ : Type} (fs : FS) (alg : HashAlg σ)
    (file_pre file_post : String) : Except PyErr Bool :=
  match get_checksum_fs fs alg file_pre with
  | .error e => .error e
  | .ok checksum_pre =>
    match get_checksum_fs fs alg file_post with
    | .error e => .error e
    | .ok checksum_post => .ok (checksum_pre == checksum_post)

/-- The verdict object built by `FolderSyncObj.verify_checksums`
(source lines 442-465): the per-server-path dictionary and the
aggregate flag. -/
structure ChecksumObj : Type where
  serverpath_transfer_ok : List (String × Bool)
  transfer_ok : Bool
deriving DecidableEq, Repr

/-- The `for ind, server_file in enumerate(...)` loop of
`FolderSyncObj.verify_checksums` (source lines 450-467), run on the
(local, server) pairs in order.  A Python exception raised by
`compare_file_checksums` is uncaught there, so it aborts the loop. -/
def verifyLoop {σ : Type} (fs : FS) (alg : HashAlg σ) :
    List (String × String) → ChecksumObj → Except PyErr ChecksumObj
  | [], obj => .ok obj
  | (lp, sp) :: rest, obj =>
    match compare_file_checksums fs alg lp sp with
    | .error e => .error e
    | .ok r =>
      verifyLoop fs alg rest
        ⟨dictInsert obj.serverpath_transfer_ok sp r,
         if r == false then false else obj.transfer_ok⟩

/-- The loop of `rm_server_corrupt_files` (source lines 486-508): for
every dictionary entry with a `False` verdict, optionally ask the
confirmation oracle, then `shutil.rmtree(path, ignore_errors=True)`.
Besides the resulting filesystem it returns the list of paths on which
`rmtree` was invoked (the paths the source reports as `deleted {}`). -/
def rmLoop (ask : Bool) (oracle : String → Bool) :
    List (String × Bool) → FS → FS × List String
  | [], fs => (fs, [])
  | (p, ok) :: rest, fs =>
    if ok == false then
      if ask then
        if oracle p then
          let r := rmLoop ask oracle rest (rmtree_ignore fs p)
          (r.1, p :: r.2)
        else rmLoop ask oracle rest fs
      else
        let r := rmLoop ask oracle rest (rmtree_ignore fs p)
        (r.1, p :: r.2)
    else rmLoop ask oracle rest fs

/-- `FolderSyncObj.rm_server_corrupt_files` (source lines 486-508). -/
def rm_server_corrupt_files (obj : ChecksumObj) (ask_before_rm : Bool)
    (oracle : String → Bool) (fs : FS) : FS × List String :=
  rmLoop ask_before_rm oracle obj.serverpath_transfer_ok fs

/-- `FolderSyncObj` (source lines 313-365): the two roots and the
server-side tracker created at construction time. -/
structure FolderSyncObj : Type where
  path_local : String
  path_server : String
  serverpathhistobj : TrackPathHistory
deriving DecidableEq, Repr

/-- `FolderSyncObj.__init__` (source lines 360-365): records the roots
and snapshots the server tree.  It never touches the local root and
performs no validity check of either root. -/
def FolderSyncObj.make (fs : FS) (dir_local dir_server : String) : FolderSyncObj :=
  ⟨dir_local, dir_server, TrackPathHistory.make fs dir_server⟩

/-- `get_diffs_serverpaths` (source lines 367-372). -/
def FolderSyncObj.get_diffs_serverpaths (so : FolderSyncObj) (fs : FS) : List String :=
  so.serverpathhistobj.ls_new fs

/-- `get_diffs_localpaths` (source lines 374-391): map each new server
path to the expected local path via `os.path.relpath` against the
server root joined onto the local root. -/
def FolderSyncObj.get_diffs_localpaths (so : FolderSyncObj) (fs : FS) : List String :=
  (so.get_diffs_serverpaths fs).map
    (fun d => joinPath so.path_local (relpath d so.path_server))

/-- The tail of `FolderSyncObj.verify_checksums` (source lines
469-484): when the aggregate verdict is bad and
`rm_files_if_integrity_bad` is set, run `rm_server_corrupt_files`.  The
result carries the verdict object, the filesystem after any removals,
and the list of paths passed to `rmtree`. -/
def verifyFinish (obj : ChecksumObj) (rm_files_if_integrity_bad ask_before_rm : Bool)
    (oracle : String → Bool) (fs : FS) : ChecksumObj × FS × List String :=
  if obj.transfer_ok == false then
    if rm_files_if_integrity_bad then
      let r := rm_server_corrupt_files obj ask_before_rm oracle fs
      (obj, r.1, r.2)
    else (obj, fs, [])
  else (obj, fs, [])

/-- The full `FolderSyncObj.verify_checksums` (see `verifyLoop` and
`verifyFinish`). -/
def FolderSyncObj.verify_checksums {σ : Type} (so : FolderSyncObj) (fs : FS)
    (alg : HashAlg σ) (rm_files_if_integrity_bad ask_before_rm : Bool)
    (oracle : String → Bool) : Except PyErr (ChecksumObj × FS × List String) :=
  let locals := so.get_diffs_localpaths fs
  let servers := so.get_diffs_serverpaths fs
  match verifyLoop fs alg (locals.zip servers) ⟨[], true⟩ with
  | .error e => .error e
  | .ok obj => .ok (verifyFinish obj rm_files_if_integrity_bad ask_before_rm oracle fs)

/-- The end-to-end scenario of the spec: local tree `{f1 = "AAA",
f2 = "BBB"}` before the transfer, server still empty. -/
def fs0C : FS :=
  ⟨[("/local/f1", ⟨[65, 65, 65], 0, 0⟩), ("/local/f2", ⟨[66, 66, 66], 0, 0⟩)],
   ["/local", "/server"]⟩

/-- The scenario filesystem after the transfer: the server copy of `f1`
is intact and the server copy of `f2` is corrupted to `"BBX"`. -/
def fs1C : FS :=
  ⟨[("/local/f1", ⟨[65, 65, 65], 0, 0⟩), ("/local/f2", ⟨[66, 66, 66], 0, 0⟩),
    ("/server/f1", ⟨[65, 65, 65], 1, 1⟩), ("/server/f2", ⟨[66, 66, 88], 1, 1⟩)],
   ["/local", "/server"]⟩

/-- The coordinator built before the transfer. -/
def soC : FolderSyncObj := FolderSyncObj.make fs0C "/local" "/server"

/-- The verdict the scenario run produces. -/
def objC : ChecksumObj :=
  ⟨[("/server/f1", true), ("/server/f2", false)], false⟩

/-- C1 (code bug): in the spec's own end-to-end scenario, running
`verify_checksums` with `rm_files_if_integrity_bad = True` and
`ask_before_rm = False` does produce the verdict `{f1: true, f2:
false}` with `transfer_ok = false` and does pass the failed path
`/server/f2` to the cleanup step, but the filesystem comes back
UNCHANGED (`fs1C`): `/server/f2` is a regular file, `shutil.rmtree`
raises `NotADirectoryError` on it, and `ignore_errors=True` swallows the
error, so the corrupt server file survives the run even though the
docstring of `rm_files_if_integrity_bad` promises its removal. -/
theorem failed_server_file_survives_cleanup :
    FolderSyncObj.verify_checksums soC fs1C algT true false (fun _ => true)
        = .ok (objC, fs1C, ["/server/f2"])
      ∧ fs1C.files.any (fun kv => kv.1 == "/server/f2") = true :=
  ⟨rfl, rfl⟩

/-- The baseline for the aborted-run scenario: before the transfer only
the local copy of `f2` exists. -/
def fs0D : FS := ⟨[("/local/f2", ⟨[66, 66, 66], 0, 0⟩)], ["/local", "/server"]⟩

/-- Coordinator for the aborted-run scenario. -/
def soD : FolderSyncObj := FolderSyncObj.make fs0D "/local" "/server"

/-- After the transfer two new files are on the server: `bad`, whose
local counterpart `/local/bad` does not exist, and `f2`, whose local
counterpart matches it exactly. -/
def fs2C : FS :=
  ⟨[("/local/f2", ⟨[66, 66, 66], 0, 0⟩), ("/server/bad", ⟨[1], 0, 0⟩),
    ("/server/f2", ⟨[66, 66, 66], 0, 0⟩)], ["/local", "/server"]⟩

/-- Counterexample for C2: processing the first path pair raises a
file-level `FileNotFoundError` (the local counterpart of `/server/bad`
is missing), and the whole run aborts with that exception: the
remaining, perfectly healthy pair `(/local/f2, /server/f2)` is never
evaluated and no per-pair verdict at all is recorded, contradicting
"the coordinator still evaluates every remaining pair". -/
theorem pair_error_aborts_whole_run :
    FolderSyncObj.verify_checksums soD fs2C algT false false (fun _ => true)
      = .error PyErr.fileNotFound := rfl

/-- C2 (amended): a file-level I/O error (or any exception) raised
while processing one path pair propagates out of the per-pair loop
uncaught, aborting the whole run: none of the remaining pairs is
evaluated and no verdict object is produced. -/
theorem pair_error_aborts_loop {σ : Type} (fs : FS) (alg : HashAlg σ)
    (lp sp : String) (rest : List (String × String)) (obj : ChecksumObj)
    (e : PyErr) (h : compare_file_checksums fs alg lp sp = .error e) :
    verifyLoop fs alg ((lp, sp) :: rest) obj = .error e := by
  simp [verifyLoop, h]

/-- Witness for the amended C2: the failing first pair of the concrete
scenario aborts the loop even though a healthy pair follows. -/
theorem pair_error_aborts_loop_witness :
    compare_file_checksums fs2C algT "/local/bad" "/server/bad"
        = .error PyErr.fileNotFound
      ∧ verifyLoop fs2C algT
          [("/local/bad", "/server/bad"), ("/local/f2", "/server/f2")] ⟨[], true⟩
        = .error PyErr.fileNotFound :=
  ⟨rfl, pair_error_aborts_loop fs2C algT "/local/bad" "/server/bad"
    [("/local/f2", "/server/f2")] ⟨[], true⟩ PyErr.fileNotFound rfl⟩

/-- Every path on which the cleanup loop invokes `rmtree` carries a
`False` verdict in the dictionary it walks. -/
theorem rmLoop_targets_failed :
    ∀ (pairs : List (String × Bool)) (ask : Bool) (oracle : String → Bool)
      (fs : FS) (p : String),
      p ∈ (rmLoop ask oracle pairs fs).2 → (p, false) ∈ pairs := by
  intro pairs
  induction pairs with
  | nil => intro ask oracle fs p h; simp [rmLoop] at h
  | cons hd rest ih =>
    intro ask oracle fs p h
    obtain ⟨q, ok⟩ := hd
    cases ok with
    | true =>
      simp only [rmLoop] at h
      exact List.mem_cons_of_mem _ (ih ask oracle fs p h)
    | false =>
      cases ask with
      | true =>
        by_cases horc : oracle q
        · simp only [rmLoop, horc, if_true] at h
          rcases List.mem_cons.mp h with hq | hmem
          · subst hq; exact List.mem_cons_self _ _
          · exact List.mem_cons_of_mem _ (ih true oracle _ p hmem)
        · simp only [rmLoop, horc, if_true, if_false] at h
          exact List.mem_cons_of_mem _ (ih true oracle fs p h)
      | false =>
        simp only [rmLoop] at h
        rcases List.mem_cons.mp h with hq | hmem
        · subst hq; exact List.mem_cons_self _ _
        · exact List.mem_cons_of_mem _ (ih false oracle _ p hmem)

/-- C10: the destructive cleanup only ever targets paths whose recorded
verdict is `False`: whenever a verification run completes, every path
passed to `rmtree` has verdict `false` in the returned dictionary, and
when the aggregate `transfer_ok` is `true` nothing at all is deleted —
the filesystem is returned unchanged and no path reaches `rmtree`,
whatever the `rm_files_if_integrity_bad`, `ask_before_rm` and oracle
arguments were. -/
theorem cleanup_targets_only_failed {σ : Type} (so : FolderSyncObj) (fs : FS)
    (alg : HashAlg σ) (rm ask : Bool) (oracle : String → Bool)
    (obj : ChecksumObj) (fs' : FS) (log : List String)
    (h : so.verify_checksums fs alg rm ask oracle = .ok (obj, fs', log)) :
    (∀ p ∈ log, (p, false) ∈ obj.serverpath_transfer_ok)
      ∧ (obj.transfer_ok = true → fs' = fs ∧ log = []) := by
  simp only [FolderSyncObj.verify_checksums] at h
  cases hL : verifyLoop fs alg
      ((so.get_diffs_localpaths fs).zip (so.get_diffs_serverpaths fs))
      ⟨[], true⟩ with
  | error e => rw [hL] at h; exact absurd h (by simp)
  | ok obj0 =>
    rw [hL] at h
    simp only [Except.ok.injEq] at h
    have hF : verifyFinish obj0 rm ask oracle fs = (obj, fs', log) := h
    clear h
    cases hT : obj0.transfer_ok with
    | true =>
      have hFe : verifyFinish obj0 rm ask oracle fs = (obj0, fs, []) := by
        simp [verifyFinish, hT]
      rw [hFe] at hF
      have h1 : obj0 = obj := congrArg Prod.fst hF
      have h2 : fs = fs' := congrArg (fun x => x.2.1) hF
      have h3 : ([] : List String) = log := congrArg (fun x => x.2.2) hF
      subst h1; subst h2; subst h3
      exact ⟨fun p hp => absurd hp (List.not_mem_nil p), fun _ => ⟨rfl, rfl⟩⟩
    | false =>
      cases rm with
      | false =>
        have hFe : verifyFinish obj0 false ask oracle fs = (obj0, fs, []) := by
          simp [verifyFinish, hT]
        rw [hFe] at hF
        have h1 : obj0 = obj := congrArg Prod.fst hF
        have h2 : fs = fs' := congrArg (fun x => x.2.1) hF
        have h3 : ([] : List String) = log := congrArg (fun x => x.2.2) hF
        subst h1; subst h2; subst h3
        exact ⟨fun p hp => absurd hp (List.not_mem_nil p),
          fun hc => by simp [hc] at hT⟩
      | true =>
        have hFe : verifyFinish obj0 true ask oracle fs
            = (obj0, (rm_server_corrupt_files obj0 ask oracle fs).1,
               (rm_server_corrupt_files obj0 ask oracle fs).2) := by
          simp [verifyFinish, hT]
        rw [hFe] at hF
        have h1 : obj0 = obj := congrArg Prod.fst hF
        have h2 : (rm_server_corrupt_files obj0 ask oracle fs).1 = fs' :=
          congrArg (fun x => x.2.1) hF
        have h3 : (rm_server_corrupt_files obj0 ask oracle fs).2 = log :=
          congrArg (fun x => x.2.2) hF
        subst h1
        refine ⟨?_, fun hc => by simp [hc] at hT⟩
        intro p hp
        rw [← h3] at hp
        exact rmLoop_targets_failed _ ask oracle fs p hp

/-- Witness for C10 on the concrete scenario run: the only deleted path
`/server/f2` indeed has verdict `false`. -/
theorem cleanup_targets_only_failed_witness :
    (∀ p ∈ (["/server/f2"] : List String), (p, false) ∈ objC.serverpath_transfer_ok)
      ∧ (objC.transfer_ok = true → fs1C = fs1C ∧ (["/server/f2"] : List String) = []) :=
  cleanup_targets_only_failed soC fs1C algT true false (fun _ => true)
    objC fs1C ["/server/f2"] rfl

/-- `os.path.split(p)[-1]`: the final path component. -/
def finalComponent (p : String) : String :=
  ((splitSlash p).getLast?).getD ""

/-- The recursive enumeration of `get_folder_checksum` (source lines
576-586): `rglob('*')` filtered to files and, when `include_hidden` is
`False`, filtered again to paths whose final component does not start
with `'.'` (`x.resolve()` is the identity here: the model has no
symlinks and all paths are absolute). -/
def enumerateRec (fs : FS) (folder : String) (include_hidden : Bool) : List String :=
  if include_hidden == false then
    (rglobFiles fs folder).filter (fun p => !(strStarts (finalComponent p) "."))
  else rglobFiles fs folder

/-- The non-recursive loop of `get_folder_checksum` (source lines
561-574): digest each `os.listdir` name; an `IsADirectoryError` is
caught and the entry skipped; any other exception propagates. -/
def nonrecLoop {σ : Type} (fs : FS) (alg : HashAlg σ) (folder : String) :
    List String → List (String × String) → Except PyErr (List (String × String))
  | [], checksums => .ok checksums
  | fname :: rest, checksums =>
    match get_checksum_fs fs alg (joinPath folder fname) with
    | .ok c => nonrecLoop fs alg folder rest (dictInsert checksums fname c)
    | .error PyErr.isADirectory => nonrecLoop fs alg folder rest checksums
    | .error e => .error e

/-- The recursive loop of `get_folder_checksum` (source lines 588-597):
key each file by `get_rel_path(path, folder)` and digest it; an
`IndexError` from `get_rel_path` or an I/O error propagates. -/
def recLoop {σ : Type} (fs : FS) (alg : HashAlg σ) (folder : String) :
    List String → List (String × String) → Except PyErr (List (String × String))
  | [], checksums => .ok checksums
  | p :: rest, checksums =>
    match get_rel_path p folder with
    | none => .error PyErr.indexError
    | some rel =>
      match get_checksum_fs fs alg p with
      | .error e => .error e
      | .ok c => recLoop fs alg folder rest (dictInsert checksums rel c)

/-- `get_folder_checksum(folder, checksum_type, recursive,
include_hidden, verbose)` (source lines 543-599).  Note that the
non-recursive branch uses the raw `os.listdir` listing and never
consults `include_hidden`. -/
def get_folder_checksum {σ : Type} (fs : FS) (alg : HashAlg σ) (folder : String)
    (recursive include_hidden : Bool) : Except PyErr (List (String × String)) :=
  if recursive == false then
    nonrecLoop fs alg folder (listdir fs folder) []
  else
    recLoop fs alg folder (enumerateRec fs folder include_hidden) []

/-- Whether a folder-checksum result is a success whose map binds the
key `k`. -/
def resultHasKey (r : Except PyErr (List (String × String))) (k : String) : Bool :=
  match r with
  | .ok m => m.any (fun kv => kv.1 == k)
  | .error _ => false

/-- A folder holding a hidden file `.h` and a plain file `a`. -/
def fs8 : FS :=
  ⟨[("/d/.h", ⟨[1], 0, 0⟩), ("/d/a", ⟨[2], 0, 0⟩)], ["/d"]⟩

/-- Counterexample for C8: in NON-recursive mode with `include_hidden =
false`, the hidden entry `.h` is NOT excluded — it appears as a key of
the returned checksum map, because the non-recursive branch lists the
folder with `os.listdir` and applies no hidden-name filter at all. -/
theorem hidden_file_included_nonrecursive :
    resultHasKey (get_folder_checksum fs8 algT "/d" false false) ".h" = true := rfl

/-- C8 (amended): the hidden-file policy holds in recursive mode only —
with `include_hidden = false` the recursive enumeration contains
exactly the files under the folder whose final path component does not
start with `'.'`; the non-recursive mode ignores `include_hidden` and
includes hidden entries. -/
theorem hidden_excluded_in_recursive_mode (fs : FS) (folder p : String) :
    p ∈ enumerateRec fs folder false ↔
      p ∈ rglobFiles fs folder ∧ strStarts (finalComponent p) "." = false := by
  simp [enumerateRec, List.mem_filter]

/-- Keys of a checksum dictionary, in insertion order. -/
def keysOf (m : List (String × String)) : List String :=
  m.map Prod.fst

/-- Python `dict.keys() == dict.keys()`: set equality of the key
views. -/
def keySetEq (a b : List String) : Bool :=
  a.all (fun k => b.contains k) && b.all (fun k => a.contains k)

/-- `m[k]` for a key known to be present (default `""` otherwise, a
case the source never reaches because it iterates over the keys). -/
def lookupD (m : List (String × String)) (k : String) : String :=
  match m.find? (fun kv => kv.1 == k) with
  | some kv => kv.2
  | none => ""

/-- The tail of `compare_folder_checksums` (source lines 653-672),
taking the two computed checksum maps: `assert checksums_pre.keys() ==
checksums_post.keys()` (an `AssertionError` when the key sets differ),
then a loop over the keys that latches `matching_checksums` to `False`
on any digest mismatch. -/
def compare_checksum_maps (pre post : List (String × String)) : Except PyErr Bool :=
  if keySetEq (keysOf pre) (keysOf post) then
    .ok ((keysOf pre).foldl
      (fun acc k => if !(lookupD pre k == lookupD post k) then false else acc) true)
  else .error PyErr.assertionError

/-- `compare_folder_checksums(folder_pre, folder_post, ...)` (source
lines 602-672): compute both tree maps, then compare them. -/
def compare_folder_checksums {σ : Type} (fs : FS) (alg : HashAlg σ)
    (folder_pre folder_post : String) (recursive : Bool) : Except PyErr Bool :=
  match get_folder_checksum fs alg folder_pre recursive false with
  | .error e => .error e
  | .ok checksums_pre =>
    match get_folder_checksum fs alg folder_post recursive false with
    | .error e => .error e
    | .ok checksums_post => compare_checksum_maps checksums_pre checksums_post

/-- C3: the comparison of two computed tree-digest maps raises the
structural-mismatch error (`AssertionError`, distinct from every other
error and from any boolean verdict) exactly when the two key sets
differ; with equal key sets no error is raised and a verdict is
returned. -/
theorem structural_mismatch_iff (pre post : List (String × String)) :
    compare_checksum_maps pre post = .error PyErr.assertionError
      ↔ keySetEq (keysOf pre) (keysOf post) = false := by
  unfold compare_checksum_maps
  cases hk : keySetEq (keysOf pre) (keysOf post) <;> simp [hk]

/-- The mismatch-latching fold equals the conjunction of the per-key
tests. -/
theorem foldl_latch (p : String → Bool) :
    ∀ (l : List String) (acc : Bool),
      l.foldl (fun a k => if !(p k) then false else a) acc = (acc && l.all p) := by
  have hfun : (fun (a : Bool) (k : String) => if !(p k) then false else a)
      = fun a k => p k && a := by
    funext a k; cases p k <;> cases a <;> simp
  rw [hfun]
  intro l
  induction l with
  | nil => intro acc; simp
  | cons k l ih =>
    intro acc
    rw [List.foldl_cons, ih, List.all_cons]
    cases p k <;> cases acc <;> simp

/-- `dict[k] = v` for a key not yet bound appends the pair. -/
theorem dictInsert_fresh {α : Type} (m : List (String × α)) (k : String) (v : α)
    (h : m.any (fun kv => kv.1 == k) = false) :
    dictInsert m k v = m ++ [(k, v)] := by
  simp [dictInsert, h]

/-- The first component of `verifyFinish` is always the verdict object
produced by the loop. -/
theorem verifyFinish_fst (obj : ChecksumObj) (rm ask : Bool) (oracle : String → Bool)
    (fs : FS) : (verifyFinish obj rm ask oracle fs).1 = obj := by
  unfold verifyFinish
  split
  · split <;> rfl
  · rfl

/-- Loop invariant of `verifyLoop`: as long as the incoming server keys
are distinct and fresh relative to the dictionary built so far, the
aggregate flag stays equal to the conjunction of the recorded per-path
verdicts. -/
theorem verifyLoop_transfer_ok_inv {σ : Type} (fs : FS) (alg : HashAlg σ) :
    ∀ (pairs : List (String × String)) (obj0 obj : ChecksumObj),
      (pairs.map Prod.snd).Nodup →
      (∀ pr ∈ pairs,
        obj0.serverpath_transfer_ok.any (fun kv => kv.1 == pr.2) = false) →
      obj0.transfer_ok = obj0.serverpath_transfer_ok.all (fun kv => kv.2) →
      verifyLoop fs alg pairs obj0 = .ok obj →
      obj.transfer_ok = obj.serverpath_transfer_ok.all (fun kv => kv.2) := by
  intro pairs
  induction pairs with
  | nil =>
    intro obj0 obj _ _ hinv h
    simp only [verifyLoop, Except.ok.injEq] at h
    rw [← h]
    exact hinv
  | cons pr rest ih =>
    intro obj0 obj hnd hdisj hinv h
    obtain ⟨lp, sp⟩ := pr
    simp only [verifyLoop] at h
    cases hc : compare_file_checksums fs alg lp sp with
    | error e => rw [hc] at h; cases h
    | ok r =>
      simp only [hc] at h
      have hfresh : obj0.serverpath_transfer_ok.any (fun kv => kv.1 == sp) = false :=
        hdisj (lp, sp) (List.mem_cons_self _ _)
      rw [dictInsert_fresh _ _ _ hfresh] at h
      have hnd2 : (rest.map Prod.snd).Nodup := by
        simp only [List.map_cons] at hnd
        exact (List.nodup_cons.mp hnd).2
      have hsp : sp ∉ rest.map Prod.snd := by
        simp only [List.map_cons] at hnd
        exact (List.nodup_cons.mp hnd).1
      have hdisj2 : ∀ q ∈ rest,
          (obj0.serverpath_transfer_ok ++ [(sp, r)]).any (fun kv => kv.1 == q.2)
            = false := by
        intro q hq
        have h1 := hdisj q (List.mem_cons_of_mem _ hq)
        have hne : sp ≠ q.2 := fun he => hsp (he ▸ List.mem_map_of_mem Prod.snd hq)
        simp [List.any_append, h1, beq_eq_false_iff_ne.mpr hne]
      have hinv2 : (if r == false then false else obj0.transfer_ok)
          = (obj0.serverpath_transfer_ok ++ [(sp, r)]).all (fun kv => kv.2) := by
        cases r <;> simp [hinv, List.all_append]
      exact ih ⟨obj0.serverpath_transfer_ok ++ [(sp, r)],
        if r == false then false else obj0.transfer_ok⟩ obj hnd2 hdisj2 hinv2 h

/-- `rglob` results inherit distinctness from the filesystem's file
list. -/
theorem rglobFiles_nodup (fs : FS) (root : String)
    (h : (fs.files.map Prod.fst).Nodup) : (rglobFiles fs root).Nodup := by
  unfold rglobFiles
  split
  · exact h.filter _
  · exact List.nodup_nil

/-- New-entry lists are duplicate-free on a well-formed filesystem. -/
theorem ls_new_nodup (t : TrackPathHistory) (fs : FS)
    (h : (fs.files.map Prod.fst).Nodup) : (t.ls_new fs).Nodup :=
  (rglobFiles_nodup fs t.pathname h).filter _

/-- C4: aggregate verdict logic.  (1) Whenever a run of
`FolderSyncObj.verify_checksums` on a well-formed filesystem (distinct
file paths, as a real filesystem guarantees) completes, the overall
`transfer_ok` equals the AND of all recorded per-path verdicts.  (2)
With matching key sets, `compare_folder_checksums`'s comparison returns
exactly the AND of the per-file digest equalities: one mismatch among
the N files forces `false`, and N matches yield `true`. -/
theorem aggregate_verdict_logic :
    (∀ (σ : Type) (so : FolderSyncObj) (fs : FS) (alg : HashAlg σ)
        (rm ask : Bool) (oracle : String → Bool) (obj : ChecksumObj)
        (fs' : FS) (log : List String),
        (fs.files.map Prod.fst).Nodup →
        so.verify_checksums fs alg rm ask oracle = .ok (obj, fs', log) →
        obj.transfer_ok = obj.serverpath_transfer_ok.all (fun kv => kv.2))
      ∧ (∀ pre post : List (String × String),
        keySetEq (keysOf pre) (keysOf post) = true →
        compare_checksum_maps pre post
          = .ok ((keysOf pre).all (fun k => lookupD pre k == lookupD post k))) := by
  constructor
  · intro σ so fs alg rm ask oracle obj fs' log hwf h
    simp only [FolderSyncObj.verify_checksums] at h
    cases hL : verifyLoop fs alg
        ((so.get_diffs_localpaths fs).zip (so.get_diffs_serverpaths fs))
        ⟨[], true⟩ with
    | error e => rw [hL] at h; cases h
    | ok obj0 =>
      rw [hL] at h
      simp only [Except.ok.injEq] at h
      have hobj : obj = obj0 := by
        have h1 := congrArg Prod.fst h
        rw [verifyFinish_fst] at h1
        exact h1.symm
      subst hobj
      have hlen : (so.get_diffs_serverpaths fs).length
          ≤ (so.get_diffs_localpaths fs).length := by
        simp [FolderSyncObj.get_diffs_localpaths]
      have hnd : (((so.get_diffs_localpaths fs).zip
          (so.get_diffs_serverpaths fs)).map Prod.snd).Nodup := by
        rw [List.map_snd_zip _ _ hlen]
        exact ls_new_nodup _ fs hwf
      exact verifyLoop_transfer_ok_inv fs alg _ ⟨[], true⟩ obj hnd
        (fun pr _ => rfl) rfl hL
  · intro pre post hk
    unfold compare_checksum_maps
    rw [foldl_latch]
    simp [hk]

/-- Witness for C4 on the concrete scenario: the scenario verdict
satisfies the AND law, and a one-file concrete comparison returns the
per-file AND. -/
theorem aggregate_verdict_logic_witness :
    ((fs1C.files.map Prod.fst).Nodup
        ∧ objC.transfer_ok = objC.serverpath_transfer_ok.all (fun kv => kv.2))
      ∧ (keySetEq (keysOf [("a", "h1")]) (keysOf [("a", "h2")]) = true
        ∧ compare_checksum_maps [("a", "h1")] [("a", "h2")]
            = .ok ((keysOf [("a", "h1")]).all
                (fun k => lookupD [("a", "h1")] k == lookupD [("a", "h2")] k))) :=
  ⟨⟨by decide, aggregate_verdict_logic.1 (List Nat) soC fs1C algT true false
      (fun _ => true) objC fs1C ["/server/f2"] (by decide) rfl⟩,
   ⟨rfl, aggregate_verdict_logic.2 [("a", "h1")] [("a", "h2")] rfl⟩⟩

/-- `FolderSyncObj_LocalServerDiff` after `__init__` (source lines
104-162): the two roots, plus the `diff_fullpath` lists — which remain
unset (`none`) when the setup comparison raised a caught
`FileNotFoundError`. -/
structure LSDiffObj : Type where
  path_local : String
  path_server : String
  diff_fullpath_local : Option (List String)
  diff_fullpath_server : Option (List String)
deriving DecidableEq, Repr

/-- `filecmp.dircmp(l, r).left_only`: names present in `l` but not in
`r`.  The `dircmp` constructor itself touches nothing; the listing
happens lazily when `left_only` is first read (inside
`get_diffs_localpaths` during `__init__`), raising the `os.listdir`
errors at that point — left side first, then right. -/
def dircmp_left_only (fs : FS) (l r : String) : Except PyErr (List String) :=
  match listdir_err fs l with
  | .error e => .error e
  | .ok la =>
    match listdir_err fs r with
    | .error e => .error e
    | .ok lb => .ok (la.filter (fun n => !(lb.contains n)))

/-- `FolderSyncObj_LocalServerDiff.__init__` (source lines 104-162):
records the roots, then computes the diff path lists inside a
`try/except FileNotFoundError` that only PRINTS `'one of the inputs is
not a directory'` and swallows the error; every other exception (for
example `NotADirectoryError` from `os.listdir` on a file) propagates
and aborts construction. -/
def LSDiff_make (fs : FS) (dir_local dir_server : String) : Except PyErr LSDiffObj :=
  match dircmp_left_only fs dir_local dir_server with
  | .ok names =>
    .ok ⟨dir_local, dir_server,
      some (names.map (fun n => joinPath dir_local n)),
      some (names.map (fun n => joinPath dir_server n))⟩
  | .error PyErr.fileNotFound => .ok ⟨dir_local, dir_server, none, none⟩
  | .error e => .error e

/-- Counterexample for C5: with a server root `/missing` that does not
exist, construction of the coordinator does NOT fail: the
`FileNotFoundError` is caught, a message is printed, and a coordinator
object is produced (with its diff lists unset) — and the snapshot-based
`FolderSyncObj.make` never fails at all (its `rglob` of a bad root just
yields an empty snapshot). -/
theorem bad_root_construction_succeeds :
    LSDiff_make (FS.mk [] ["/local"]) "/local" "/missing"
        = .ok ⟨"/local", "/missing", none, none⟩
      ∧ FolderSyncObj.make (FS.mk [] ["/local"]) "/local" "/missing"
        = ⟨"/local", "/missing", ⟨"/missing", []⟩⟩ :=
  ⟨rfl, rfl⟩

/-- C5 (amended): only a root that EXISTS as a regular file aborts
construction of the `FolderSyncObj_LocalServerDiff` coordinator, with
`NotADirectoryError` from `os.listdir`; a nonexistent root's
`FileNotFoundError` is caught and swallowed (construction completes
with the diff lists unset), and the snapshot-based variant's
construction is total. -/
theorem lsdiff_make_notadir (fs : FS) (dl ds : String)
    (h1 : fs.dirs.contains dl = false)
    (h2 : fs.files.any (fun kv => kv.1 == dl) = true) :
    LSDiff_make fs dl ds = .error PyErr.notADirectory := by
  have h1m : ¬ dl ∈ fs.dirs := by simpa using h1
  simp [LSDiff_make, dircmp_left_only, listdir_err, h1m, h2]

/-- Witness for the amended C5: the local root is a regular file, and
construction aborts with `NotADirectoryError`. -/
theorem lsdiff_make_notadir_witness :
    ((FS.mk [("/local", ⟨[], 0, 0⟩)] []).dirs.contains "/local" = false
        ∧ (FS.mk [("/local", ⟨[], 0, 0⟩)] []).files.any
            (fun kv => kv.1 == "/local") = true)
      ∧ LSDiff_make (FS.mk [("/local", ⟨[], 0, 0⟩)] []) "/local" "/srv"
        = .error PyErr.notADirectory :=
  ⟨⟨rfl, rfl⟩,
   lsdiff_make_notadir (FS.mk [("/local", ⟨[], 0, 0⟩)] []) "/local" "/srv" rfl rfl⟩
